import Mathlib

/-!
Verification development for the dev-server repository (scripts/dev_server.py).

The two cores are embedded shallowly:
* the header policy of `Handler.end_headers` (lines 20-42), as a pure function from
  the handler configuration to the ordered list of `send_header` calls it makes;
* the port-acquisition search of `main` (lines 73-86) together with `try_bind`
  (lines 51-58) and `ReuseTCPServer` (lines 46-47), with the operating system's
  response to a bind on each port abstracted as an environment
  `env : Nat → Option PyExc` (`none` means the bind succeeds, `some exc` means the
  constructor of `ReuseTCPServer` raises the exception `exc`).
-/

namespace DevServer

/-! ## Substring containment, modelling the Python operator `pat in s` -/

/-- Decides whether the second character list is an initial segment of the first. -/
def charsStartWith : List Char → List Char → Bool
  | _, [] => true
  | [], _ :: _ => false
  | a :: as, p :: ps => a == p && charsStartWith as ps

/-- Decides whether the second character list occurs contiguously in the first. -/
def charsContain : List Char → List Char → Bool
  | [], pat => pat.isEmpty
  | a :: as, pat => charsStartWith (a :: as) pat || charsContain as pat

/-- Models the Python expression `pat in s` on strings: substring containment. -/
def strContains (s pat : String) : Bool :=
  charsContain s.data pat.data

/-! ## Header policy (Handler.end_headers, dev_server.py lines 20-42) -/

/-- The two values accepted for the `--coep` option
(`choices=['require-corp','credentialless']`, dev_server.py line 64). -/
inductive EmbedderPolicy where
  | RequireCorp
  | Credentialless
deriving DecidableEq

/-- The string each `--coep` choice stands for in argparse (dev_server.py line 64). -/
def coepValue : EmbedderPolicy → String
  | .RequireCorp => "require-corp"
  | .Credentialless => "credentialless"

/-- The isolation configuration handed to the handler factory (dev_server.py line 71):
the `--isolated` flag and the `--coep` choice. -/
structure IsolationConfig where
  enabled : Bool
  embedderPolicy : EmbedderPolicy
deriving DecidableEq

/-- The fixed Content-Security-Policy literal built in `end_headers`
(dev_server.py lines 31-40). -/
def cspValue : String :=
  "default-src \x27self\x27; connect-src \x27self\x27 https://*.supabase.co; img-src \x27self\x27 data:; script-src \x27self\x27 \x27unsafe-eval\x27; style-src \x27self\x27 \x27unsafe-inline\x27; worker-src \x27self\x27 blob:; frame-ancestors \x27none\x27"

/-- The ordered list of `send_header(name, value)` calls made by `Handler.end_headers`
(dev_server.py lines 20-41): always `X-Content-Type-Options`, then the three
cross-origin isolation headers when `self.isolated` holds, then the fixed CSP. -/
def headerList (isolated : Bool) (coep_policy : String) : List (String × String) :=
  [("X-Content-Type-Options", "nosniff")]
    ++ (if isolated then
          [("Cross-Origin-Opener-Policy", "same-origin"),
           ("Cross-Origin-Embedder-Policy", coep_policy),
           ("Cross-Origin-Resource-Policy", "same-origin")]
        else [])
    ++ [("Content-Security-Policy", cspValue)]

/-- The attributes of a `Handler` instance that exist when `end_headers` runs:
the configuration set in `__init__` (dev_server.py lines 13-14) plus the
request-specific state of the base class, represented by the request path. -/
structure HandlerState where
  isolated : Bool
  coep_policy : String
  path : String
deriving DecidableEq

/-- State-passing form of `Handler.end_headers` (dev_server.py lines 20-42): it emits
the header list and assigns no attribute, so the handler state is returned unchanged. -/
def end_headers (s : HandlerState) : List (String × String) × HandlerState :=
  (headerList s.isolated s.coep_policy, s)

/-- The header set determined by an isolation configuration: `end_headers` applied to a
handler built by the factory of dev_server.py line 71 with that configuration. -/
def computeHeaders (c : IsolationConfig) : List (String × String) :=
  headerList c.enabled (coepValue c.embedderPolicy)

/-! ## Port binding (try_bind and main, dev_server.py lines 46-93) -/

/-- An exception a bind attempt can raise: an `OSError` carrying `errno` and the text
of `str(e)`, or the `OverflowError` CPython raises for a port outside 0-65535
(an `OverflowError` is not an `OSError`, so `except OSError` does not catch it). -/
inductive PyExc where
  | osError (errno : Int) (msg : String)
  | overflowError (msg : String)
deriving DecidableEq

/-- The message fragment tested by dev_server.py line 55. -/
def addrInUseText : String := "Address already in use"

/-- The condition of dev_server.py line 55, `e.errno == 48 or 'Address already in use'
in str(e)`, extended to `false` for an exception the `except OSError` clause does not
catch at all (an `OverflowError` propagates without reaching line 55). -/
def caughtAsAddrInUse : PyExc → Bool
  | .osError errno msg => errno == 48 || strContains msg addrInUseText
  | .overflowError _ => false

/-- Class attribute of `ReuseTCPServer` (dev_server.py line 47). -/
def allow_reuse_address : Bool := true

/-- One bind attempt as observed from outside: the port passed to the
`ReuseTCPServer` constructor and the reuse-address option it is created with. -/
structure BindAttempt where
  port : Nat
  reuseAddr : Bool
deriving DecidableEq

/-- Every attempt constructs a `ReuseTCPServer` (dev_server.py line 53), so it carries
that class's `allow_reuse_address` setting. -/
def mkAttempt (p : Nat) : BindAttempt :=
  ⟨p, allow_reuse_address⟩

/-- Outcome of one `try_bind` call: a bound server together with the port it was asked
for, the `(None, None)` return, or an exception propagating out of `try_bind`. -/
inductive TryBindResult where
  | bound (port : Nat)
  | notBound
  | raised (exc : PyExc)
deriving DecidableEq

/-- Embedding of `try_bind` (dev_server.py lines 51-58): on success return the server
and the requested port; on an exception classified address-in-use return
`(None, None)`; re-raise anything else. -/
def try_bind (env : Nat → Option PyExc) (port : Nat) : TryBindResult :=
  match env port with
  | none => .bound port
  | some exc => if caughtAsAddrInUse exc then .notBound else .raised exc

/-- Outcome of a sequence of attempts in `main`: a bound port, every candidate
returned `(None, None)`, or an exception propagated out of `main`. -/
inductive SearchResult where
  | bound (port : Nat)
  | exhausted
  | fatal (exc : PyExc)
deriving DecidableEq

/-- First-success search over a list of candidate ports, as the loop of dev_server.py
lines 76-79 does: stop at the first `bound`, propagate a raised exception, report
exhaustion when every candidate returned `(None, None)`. -/
def bindFirst (env : Nat → Option PyExc) : List Nat → SearchResult
  | [] => .exhausted
  | p :: rest =>
    match try_bind env p with
    | .bound q => .bound q
    | .notBound => bindFirst env rest
    | .raised exc => .fatal exc

/-- The ports of `range(args.port + 1, args.port + 21)` (dev_server.py line 76). -/
def fallbackPorts (startPort : Nat) : List Nat :=
  (List.range 20).map (fun i => startPort + 1 + i)

/-- Every port `main` can pass to `try_bind`, in attempt order: the requested port
(line 74), the twenty fallback ports (line 76), then port 0 (line 83). -/
def candidatePorts (startPort : Nat) : List Nat :=
  startPort :: (fallbackPorts startPort ++ [0])

/-- Embedding of the port-acquisition phase of `main` (dev_server.py lines 73-86):
try the requested port, then the twenty fallback ports, then port 0, stopping at the
first success; any exception raised out of `try_bind` propagates out of `main`. -/
def mainBind (env : Nat → Option PyExc) (startPort : Nat) : SearchResult :=
  match try_bind env startPort with
  | .bound q => .bound q
  | .raised exc => .fatal exc
  | .notBound =>
    match bindFirst env (fallbackPorts startPort) with
    | .bound q => .bound q
    | .fatal exc => .fatal exc
    | .exhausted =>
      match try_bind env 0 with
      | .bound q => .bound q
      | .raised exc => .fatal exc
      | .notBound => .exhausted

/-- The attempts actually performed when the candidates of a list are tried in order:
each candidate up to and including the first whose `try_bind` does not return
`(None, None)` (a success stops the search, an exception aborts it). -/
def attemptTrace (env : Nat → Option PyExc) : List Nat → List BindAttempt
  | [] => []
  | p :: rest =>
    match try_bind env p with
    | .notBound => mkAttempt p :: attemptTrace env rest
    | _ => [mkAttempt p]

/-- The bind attempts one run of `main` performs, in order: `main` consumes
`candidatePorts` front to back, stopping at the first attempt that binds or raises. -/
def mainTrace (env : Nat → Option PyExc) (startPort : Nat) : List BindAttempt :=
  attemptTrace env (candidatePorts startPort)

/-- Exit code of the serving phase after a successful bind (dev_server.py lines 88-93):
`serve_forever` ends only via `KeyboardInterrupt`, which `main` catches, so the process
exits 0 with or without an interrupt. -/
def serveExitCode (interrupted : Bool) : Nat :=
  match interrupted with
  | true => 0
  | false => 0

/-- Exit code of one run of `main` (dev_server.py lines 73-93): serve and exit 0 after
a successful bind, `sys.exit(2)` when every strategy returned `(None, None)`, and no
`sys.exit` path at all (`none`) when an exception propagates out of the search. -/
def mainExitCode (env : Nat → Option PyExc) (startPort : Nat)
    (interrupted : Bool) : Option Nat :=
  match mainBind env startPort with
  | .bound _ => some (serveExitCode interrupted)
  | .exhausted => some 2
  | .fatal _ => none

/-! ## MIME registrations (Handler.init, dev_server.py lines 12-18) -/

/-- Models `mimetypes.add_type(ty, ext)`: assignment into the process-global
extension-to-type map, with the most recent registration for an extension winning. -/
def add_type (typesMap : List (String × String)) (ty ext : String) :
    List (String × String) :=
  (ext, ty) :: typesMap.filter (fun p => p.1 != ext)

/-- The two `mimetypes.add_type` calls of `Handler.__init__`
(dev_server.py lines 16-17), applied to the global registry. -/
def handlerInitRegistry (r : List (String × String)) : List (String × String) :=
  add_type (add_type r "application/wasm" ".wasm") "application/octet-stream" ".data"

/-- The modelled entries of the global MIME registry after `n` handler constructions
(the server constructs one `Handler` per accepted request, each running `__init__`). -/
def registryAfter : Nat → List (String × String)
  | 0 => []
  | n + 1 => handlerInitRegistry (registryAfter n)

/-- The `(type, extension)` arguments of the `add_type` calls one `Handler.__init__`
performs (dev_server.py lines 16-17). -/
def handlerInitAddTypeCalls : List (String × String) :=
  [("application/wasm", ".wasm"), ("application/octet-stream", ".data")]

/-- All `add_type` calls of a run in which `n` handlers are constructed: `__init__`
runs once per accepted request, not once at process start. -/
def runAddTypeCalls (handlersConstructed : Nat) : List (String × String) :=
  (List.replicate handlersConstructed handlerInitAddTypeCalls).flatten

/-! ## Concrete environments used as witnesses -/

/-- Environment in which every bind succeeds. -/
def envFree : Nat → Option PyExc :=
  fun _ => none

/-- Environment in which every bind fails with the macOS address-in-use error. -/
def envAllInUse : Nat → Option PyExc :=
  fun _ => some (.osError 48 "[Errno 48] Address already in use")

/-- Environment in which every valid port is occupied and any port above 65535 draws
the CPython `OverflowError` for an out-of-range port number. -/
def envBusyThenOverflow : Nat → Option PyExc :=
  fun p =>
    if p ≤ 65535 then some (.osError 48 "[Errno 48] Address already in use")
    else some (.overflowError "getsockaddrarg: port must be 0-65535.")

/-- Environment in which every bind fails with a permission error. -/
def envPermDenied : Nat → Option PyExc :=
  fun _ => some (.osError 13 "[Errno 13] Permission denied")

end DevServer

namespace DevServer

/-! ## Theorems about the header policy -/

/-- C2: with isolation enabled the computed header set has exactly five entries, in
the fixed order nosniff, Cross-Origin-Opener-Policy, Cross-Origin-Embedder-Policy
(valued per the embedder policy), Cross-Origin-Resource-Policy, and the fixed
Content-Security-Policy literal. -/
theorem C2_isolated_header_set : ∀ e : EmbedderPolicy,
    computeHeaders ⟨true, e⟩ =
      [("X-Content-Type-Options", "nosniff"),
       ("Cross-Origin-Opener-Policy", "same-origin"),
       ("Cross-Origin-Embedder-Policy", coepValue e),
       ("Cross-Origin-Resource-Policy", "same-origin"),
       ("Content-Security-Policy", cspValue)]
    ∧ (computeHeaders ⟨true, e⟩).length = 5
    ∧ coepValue EmbedderPolicy.RequireCorp = "require-corp"
    ∧ coepValue EmbedderPolicy.Credentialless = "credentialless" := by
  intro e
  cases e <;> exact ⟨rfl, rfl, rfl, rfl⟩

/-- C5: with isolation disabled the header set is exactly nosniff plus the CSP entry,
omitting all three cross-origin headers; with isolation enabled the
Cross-Origin-Embedder-Policy entry appears exactly once, valued require-corp for the
RequireCorp policy. -/
theorem C5_isolation_toggling : ∀ e : EmbedderPolicy,
    computeHeaders ⟨false, e⟩ =
      [("X-Content-Type-Options", "nosniff"), ("Content-Security-Policy", cspValue)]
    ∧ ((computeHeaders ⟨false, e⟩).all fun hv =>
         hv.1 != "Cross-Origin-Opener-Policy" && hv.1 != "Cross-Origin-Embedder-Policy"
           && hv.1 != "Cross-Origin-Resource-Policy") = true
    ∧ (computeHeaders ⟨true, e⟩).countP
        (fun hv => hv.1 == "Cross-Origin-Embedder-Policy") = 1
    ∧ ("Cross-Origin-Embedder-Policy", coepValue e) ∈ computeHeaders ⟨true, e⟩
    ∧ coepValue EmbedderPolicy.RequireCorp = "require-corp" := by
  intro e
  cases e <;> exact ⟨rfl, by decide, by decide, by decide, rfl⟩

set_option maxRecDepth 8192 in
/-- C6: for all four configurations, the Content-Security-Policy entry carries the
one fixed literal policy string; it does not vary with any field of the config. -/
theorem C6_csp_fixed_literal : ∀ c : IsolationConfig,
    (computeHeaders c).filter (fun hv => hv.1 == "Content-Security-Policy") =
      [("Content-Security-Policy",
        "default-src \x27self\x27; connect-src \x27self\x27 https://*.supabase.co; img-src \x27self\x27 data:; script-src \x27self\x27 \x27unsafe-eval\x27; style-src \x27self\x27 \x27unsafe-inline\x27; worker-src \x27self\x27 blob:; frame-ancestors \x27none\x27")] := by
  intro c
  obtain ⟨e, p⟩ := c
  cases e <;> cases p <;> decide

/-- C8: the header computation is deterministic and stateless. Two handler states
agreeing on the configuration fields (however their request state differs) produce
identical ordered header lists; running end_headers leaves the handler state
unchanged; and a repeated invocation yields the same list again. -/
theorem C8_header_determinism :
    ∀ s t : HandlerState, s.isolated = t.isolated → s.coep_policy = t.coep_policy →
    (end_headers s).1 = (end_headers t).1
    ∧ (end_headers s).2 = s
    ∧ (end_headers ((end_headers s).2)).1 = (end_headers s).1 := by
  intro s t hiso hcoep
  refine ⟨?_, rfl, rfl⟩
  show headerList s.isolated s.coep_policy = headerList t.isolated t.coep_policy
  rw [hiso, hcoep]

/-- Witness for C8 at two concrete handler states differing only in request state. -/
theorem C8_header_determinism_witness :
    (end_headers ⟨true, "credentialless", "/index.html"⟩).1
      = (end_headers ⟨true, "credentialless", "/app.wasm"⟩).1 :=
  (C8_header_determinism ⟨true, "credentialless", "/index.html"⟩
    ⟨true, "credentialless", "/app.wasm"⟩ rfl rfl).1

/-! ## Theorems about the MIME registrations -/

/-- C9 counterexample: in a run in which two handlers are constructed (two requests
served), the wasm MIME registration is supplied twice, not exactly once at process
start: the add_type calls sit in Handler.init, which runs per accepted request. -/
theorem C9_mime_once_counterexample :
    (runAddTypeCalls 2).count ("application/wasm", ".wasm") = 2
    ∧ ¬ (runAddTypeCalls 2).count ("application/wasm", ".wasm") = 1 := by
  decide

/-- C9 amended: the MIME registrations are supplied on every handler construction
(once per handled request) rather than once at process start, but re-registration is
idempotent: from the first construction onward the registry never changes and maps
.wasm and .data as documented; and per-response header computation mutates nothing. -/
theorem C9_mime_registration_idempotent :
    ∀ n : Nat, 1 ≤ n →
    registryAfter n = registryAfter 1
    ∧ (registryAfter n).lookup ".wasm" = some "application/wasm"
    ∧ (registryAfter n).lookup ".data" = some "application/octet-stream"
    ∧ ∀ s : HandlerState, (end_headers s).2 = s := by
  intro n hn
  have two_eq_one : registryAfter 2 = registryAfter 1 := by decide
  have key : ∀ m : Nat, registryAfter (m + 1) = registryAfter 1 := by
    intro m
    induction m with
    | zero => rfl
    | succ k ih =>
      calc registryAfter (k + 1 + 1) = handlerInitRegistry (registryAfter (k + 1)) := rfl
        _ = handlerInitRegistry (registryAfter 1) := by rw [ih]
        _ = registryAfter 1 := two_eq_one
  obtain ⟨m, rfl⟩ : ∃ m, n = m + 1 := ⟨n - 1, by omega⟩
  exact ⟨key m, by rw [key m]; rfl, by rw [key m]; rfl, fun s => rfl⟩

/-- Witness for the amended C9 at a concrete run of five handler constructions. -/
theorem C9_mime_registration_idempotent_witness :
    registryAfter 5 = registryAfter 1 ∧ (registryAfter 5).lookup ".wasm" = some "application/wasm" :=
  ⟨(C9_mime_registration_idempotent 5 (by decide)).1,
   (C9_mime_registration_idempotent 5 (by decide)).2.1⟩

end DevServer

namespace DevServer

/-! ## Helper lemmas about the port search -/

/-- Evaluates serveExitCode: the process exits 0 with or without an interrupt. -/
lemma serveExitCode_eq_zero (interrupted : Bool) : serveExitCode interrupted = 0 := by
  cases interrupted <;> rfl

/-- try_bind on a port whose bind raises an exception. -/
lemma try_bind_some {env : Nat → Option PyExc} {p : Nat} {exc : PyExc}
    (h : env p = some exc) :
    try_bind env p = if caughtAsAddrInUse exc then .notBound else .raised exc := by
  unfold try_bind
  rw [h]

/-- try_bind on a port whose bind succeeds. -/
lemma try_bind_none {env : Nat → Option PyExc} {p : Nat} (h : env p = none) :
    try_bind env p = .bound p := by
  unfold try_bind
  rw [h]

/-- try_bind returns the `(None, None)` outcome exactly on an exception the
`except OSError` branch classifies as address-in-use. -/
lemma try_bind_notBound_iff {env : Nat → Option PyExc} {p : Nat} :
    try_bind env p = .notBound ↔
      ∃ exc, env p = some exc ∧ caughtAsAddrInUse exc = true := by
  unfold try_bind
  cases h : env p with
  | none => simp
  | some exc =>
    by_cases hc : caughtAsAddrInUse exc <;> simp [hc]

/-- Splitting the first-success search across an append. -/
lemma bindFirst_append (env : Nat → Option PyExc) (l₁ l₂ : List Nat) :
    bindFirst env (l₁ ++ l₂) =
      match bindFirst env l₁ with
      | .exhausted => bindFirst env l₂
      | r => r := by
  induction l₁ with
  | nil => rfl
  | cons p rest ih =>
    simp only [List.cons_append, bindFirst]
    cases h : try_bind env p <;> simp [h, ih]

/-- Unfolding equation of bindFirst on a cons cell. -/
lemma bindFirst_cons (env : Nat → Option PyExc) (p : Nat) (l : List Nat) :
    bindFirst env (p :: l) =
      match try_bind env p with
      | .bound q => .bound q
      | .notBound => bindFirst env l
      | .raised exc => .fatal exc := rfl

/-- Unfolding equation of attemptTrace on a cons cell. -/
lemma attemptTrace_cons (env : Nat → Option PyExc) (p : Nat) (l : List Nat) :
    attemptTrace env (p :: l) =
      match try_bind env p with
      | .notBound => mkAttempt p :: attemptTrace env l
      | _ => [mkAttempt p] := rfl

/-- The staged search of `main` equals the first-success search over the full
candidate list. -/
lemma mainBind_eq_bindFirst (env : Nat → Option PyExc) (P : Nat) :
    mainBind env P = bindFirst env (candidatePorts P) := by
  show mainBind env P = bindFirst env (P :: (fallbackPorts P ++ [0]))
  rw [bindFirst_cons, bindFirst_append]
  unfold mainBind
  cases h : try_bind env P with
  | bound q => rfl
  | raised exc => rfl
  | notBound =>
    cases hf : bindFirst env (fallbackPorts P) with
    | bound q => rfl
    | fatal exc => rfl
    | exhausted =>
      rw [bindFirst_cons]
      cases h0 : try_bind env 0 <;> rfl

/-- The search is exhausted exactly when every candidate returns `(None, None)`. -/
lemma bindFirst_exhausted_iff (env : Nat → Option PyExc) (l : List Nat) :
    bindFirst env l = .exhausted ↔ ∀ p ∈ l, try_bind env p = .notBound := by
  induction l with
  | nil => simp [bindFirst]
  | cons p rest ih =>
    simp only [bindFirst]
    cases h : try_bind env p with
    | bound q => simp [h]
    | notBound => simp [h, ih]
    | raised exc => simp [h]

/-- Every attempt in a trace is performed with the reuse-address option of
`ReuseTCPServer` enabled. -/
lemma attemptTrace_reuseAddr (env : Nat → Option PyExc) (l : List Nat) :
    ∀ a ∈ attemptTrace env l, a.reuseAddr = true := by
  induction l with
  | nil => intro a ha; simp [attemptTrace] at ha
  | cons p rest ih =>
    intro a ha
    unfold attemptTrace at ha
    cases h : try_bind env p with
    | notBound =>
      rw [h] at ha
      rcases List.mem_cons.mp ha with rfl | ha'
      · rfl
      · exact ih a ha'
    | bound q =>
      rw [h] at ha
      rcases List.mem_cons.mp ha with rfl | ha'
      · rfl
      · simp at ha'
    | raised exc =>
      rw [h] at ha
      rcases List.mem_cons.mp ha with rfl | ha'
      · rfl
      · simp at ha'

/-- The ports of a trace form an initial segment of the candidate list. -/
lemma attemptTrace_map_port_take (env : Nat → Option PyExc) (l : List Nat) :
    (attemptTrace env l).map BindAttempt.port
      = l.take ((attemptTrace env l).length) := by
  induction l with
  | nil => rfl
  | cons p rest ih =>
    unfold attemptTrace
    cases h : try_bind env p with
    | notBound => simp [h, ih, mkAttempt]
    | bound q => simp [h, mkAttempt]
    | raised exc => simp [h, mkAttempt]

/-- The candidate list spelled out: the start port, the twenty following ports in
ascending order, then port 0. -/
lemma candidatePorts_eq_range (P : Nat) :
    candidatePorts P = (List.range 21).map (fun i => P + i) ++ [0] := by
  have h21 : List.range 21 = 0 :: (List.range 20).map Nat.succ :=
    List.range_succ_eq_map 20
  rw [h21]
  unfold candidatePorts fallbackPorts
  simp only [List.map_cons, List.map_map, List.cons_append, Nat.add_zero]
  have hfun : ((fun i => P + i) ∘ Nat.succ) = (fun i => P + 1 + i) := by
    funext i
    simp [Function.comp]
    omega
  rw [hfun]

/-- For a start port of at least 1, the candidate list repeats no port. -/
lemma candidatePorts_nodup (P : Nat) (h1 : 1 ≤ P) : (candidatePorts P).Nodup := by
  rw [candidatePorts_eq_range]
  apply List.Nodup.append
  · exact (List.nodup_range 21).map (fun a b hab => by omega)
  · simp
  · intro a ha hb
    simp at hb
    subst hb
    obtain ⟨i, _, hi⟩ := List.mem_map.mp ha
    omega

end DevServer

namespace DevServer

/-- When every bind failure is classified address-in-use, the trace over a candidate
list is exactly the failing prefix followed by the first succeeding candidate, and a
bound result returns precisely that first succeeding candidate. -/
lemma attemptTrace_all_addrInUse (env : Nat → Option PyExc)
    (h : ∀ p exc, env p = some exc → caughtAsAddrInUse exc = true) :
    ∀ l : List Nat,
      (attemptTrace env l).map BindAttempt.port
        = l.takeWhile (fun p => (env p).isSome)
            ++ ((l.find? (fun p => (env p).isNone)).toList)
      ∧ (∀ q, bindFirst env l = .bound q →
          l.find? (fun p => (env p).isNone) = some q) := by
  intro l
  induction l with
  | nil => exact ⟨rfl, fun q hq => by cases hq⟩
  | cons p rest ih =>
    cases hp : env p with
    | none =>
      have ht : try_bind env p = .bound p := try_bind_none hp
      constructor
      · rw [attemptTrace_cons, ht]
        simp [List.takeWhile_cons, List.find?_cons, hp, mkAttempt]
      · intro q hq
        rw [bindFirst_cons, ht] at hq
        cases hq
        simp [List.find?_cons, hp]
    | some exc =>
      have hc := h p exc hp
      have ht : try_bind env p = .notBound := by
        rw [try_bind_some hp, if_pos hc]
      obtain ⟨ih1, ih2⟩ := ih
      constructor
      · rw [attemptTrace_cons, ht]
        simp [List.takeWhile_cons, List.find?_cons, hp, mkAttempt, ih1]
      · intro q hq
        rw [bindFirst_cons, ht] at hq
        have := ih2 q hq
        simp [List.find?_cons, hp, this]

/-- C1: under a fallback search in which every bind failure is classified
address-in-use, the ports attempted are exactly the start port, the twenty following
ports in ascending order, then port 0, truncated at the first successful bind; the
reuse-address option is enabled on every attempt; and the port returned by a
successful search is the first candidate whose bind succeeds. -/
theorem C1_port_sequence (env : Nat → Option PyExc) (P : Nat)
    (h : ∀ p exc, env p = some exc → caughtAsAddrInUse exc = true) :
    candidatePorts P = (List.range 21).map (fun i => P + i) ++ [0]
    ∧ (∀ a ∈ mainTrace env P, a.reuseAddr = true)
    ∧ (mainTrace env P).map BindAttempt.port
        = (candidatePorts P).takeWhile (fun p => (env p).isSome)
            ++ (((candidatePorts P).find? (fun p => (env p).isNone)).toList)
    ∧ (∀ q, mainBind env P = .bound q →
        (candidatePorts P).find? (fun p => (env p).isNone) = some q) := by
  refine ⟨candidatePorts_eq_range P, attemptTrace_reuseAddr env (candidatePorts P),
    (attemptTrace_all_addrInUse env h (candidatePorts P)).1, ?_⟩
  intro q hq
  rw [mainBind_eq_bindFirst] at hq
  exact (attemptTrace_all_addrInUse env h (candidatePorts P)).2 q hq

/-- Witness for C1: in an environment where every port is free and with start port
9000, the trace consists of the single successful attempt at 9000. -/
theorem C1_port_sequence_witness :
    (mainTrace envFree 9000).map BindAttempt.port
      = (candidatePorts 9000).takeWhile (fun p => (envFree p).isSome)
          ++ (((candidatePorts 9000).find? (fun p => (envFree p).isNone)).toList) :=
  (C1_port_sequence envFree 9000 (fun _ _ hpe => by cases hpe)).2.2.1

/-- C3: an OSError is classified recoverable address-in-use exactly when its errno is
48 or its text contains the address-in-use fragment; an attempt failing that way makes
the search move on to the next candidate, while any other exception aborts the search
immediately, surfaces to the caller, and no further candidate is attempted. -/
theorem C3_error_classification :
    ∀ (exc : PyExc) (env : Nat → Option PyExc) (p : Nat) (rest : List Nat),
      env p = some exc →
      (∀ errno msg, exc = .osError errno msg →
        (caughtAsAddrInUse exc = true ↔
          errno = 48 ∨ strContains msg addrInUseText = true))
      ∧ (caughtAsAddrInUse exc = true →
          bindFirst env (p :: rest) = bindFirst env rest
          ∧ attemptTrace env (p :: rest) = mkAttempt p :: attemptTrace env rest)
      ∧ (caughtAsAddrInUse exc = false →
          bindFirst env (p :: rest) = .fatal exc
          ∧ attemptTrace env (p :: rest) = [mkAttempt p]) := by
  intro exc env p rest hp
  refine ⟨?_, ?_, ?_⟩
  · rintro errno msg rfl
    simp [caughtAsAddrInUse]
  · intro hc
    have ht : try_bind env p = .notBound := by
      rw [try_bind_some hp, if_pos hc]
    exact ⟨by rw [bindFirst_cons, ht], by rw [attemptTrace_cons, ht]⟩
  · intro hc
    have ht : try_bind env p = .raised exc := by
      rw [try_bind_some hp, if_neg (by simp [hc])]
    exact ⟨by rw [bindFirst_cons, ht], by rw [attemptTrace_cons, ht]⟩

/-- Witness for C3: a permission-denied failure on the first candidate aborts the
search at once; the remaining candidates are never attempted. -/
theorem C3_error_classification_witness :
    bindFirst envPermDenied (8000 :: [8001, 8002])
      = .fatal (.osError 13 "[Errno 13] Permission denied")
    ∧ attemptTrace envPermDenied (8000 :: [8001, 8002]) = [mkAttempt 8000] :=
  (C3_error_classification (.osError 13 "[Errno 13] Permission denied") envPermDenied
    8000 [8001, 8002] rfl).2.2 (by decide)

end DevServer

namespace DevServer

/-- C4: the process exits with code 2 exactly when every candidate of the search —
the start port, the twenty ascending fallback ports, and the final OS-assigned-port
attempt — fails with a failure classified address-in-use; on a successful bind of any
candidate the process instead serves and exits 0, interrupted or not. -/
theorem C4_exit_codes (env : Nat → Option PyExc) (P : Nat) (interrupted : Bool) :
    (mainExitCode env P interrupted = some 2 ↔
      ∀ p ∈ candidatePorts P, ∃ exc, env p = some exc ∧ caughtAsAddrInUse exc = true)
    ∧ (∀ q, mainBind env P = .bound q →
        mainExitCode env P interrupted = some 0) := by
  constructor
  · unfold mainExitCode
    rw [mainBind_eq_bindFirst]
    cases hb : bindFirst env (candidatePorts P) with
    | bound q =>
      constructor
      · intro hx
        rw [serveExitCode_eq_zero] at hx
        cases hx
      · intro hall
        have hex : bindFirst env (candidatePorts P) = .exhausted :=
          (bindFirst_exhausted_iff env _).mpr
            (fun p hp => try_bind_notBound_iff.mpr (hall p hp))
        rw [hb] at hex
        cases hex
    | exhausted =>
      constructor
      · intro _ p hp
        exact try_bind_notBound_iff.mp
          (((bindFirst_exhausted_iff env _).mp hb) p hp)
      · intro _
        rfl
    | fatal exc =>
      constructor
      · intro hx
        cases hx
      · intro hall
        have hex : bindFirst env (candidatePorts P) = .exhausted :=
          (bindFirst_exhausted_iff env _).mpr
            (fun p hp => try_bind_notBound_iff.mpr (hall p hp))
        rw [hb] at hex
        cases hex
  · intro q hq
    unfold mainExitCode
    rw [hq, serveExitCode_eq_zero]

/-- Witness for C4: with every port free and start port 8000, the server binds and a
run interrupted by the user exits with code 0. -/
theorem C4_exit_codes_witness :
    mainExitCode envFree 8000 true = some 0 :=
  (C4_exit_codes envFree 8000 true).2 8000 rfl

set_option maxRecDepth 8192 in
/-- C7 counterexample: for the in-range start port 0, when every attempt fails as
address-in-use, the sequence of attempted ports is 0, 1, ..., 20 and then 0 again —
the port value 0 appears twice in one search, refuting the claim for P = 0. -/
theorem C7_counterexample :
    (mainTrace envAllInUse 0).map BindAttempt.port = List.range 21 ++ [0]
    ∧ ¬ ((mainTrace envAllInUse 0).map BindAttempt.port).Nodup := by
  decide

/-- C7 amended: for every start port P in [1, 65535] — though not for P = 0, where
the OS-assigned-port fallback repeats port 0 — no port value appears twice in the
sequence of bind attempts of one search, whatever the environment does. -/
theorem C7_no_double_bind_amended (env : Nat → Option PyExc) (P : Nat)
    (h1 : 1 ≤ P) (_h2 : P ≤ 65535) :
    ((mainTrace env P).map BindAttempt.port).Nodup := by
  rw [mainTrace, attemptTrace_map_port_take]
  exact List.Nodup.sublist (List.take_sublist _ _) (candidatePorts_nodup P h1)

/-- Witness for the amended C7: with start port 9000 and every port occupied, all 22
attempted ports are distinct. -/
theorem C7_no_double_bind_witness :
    ((mainTrace envAllInUse 9000).map BindAttempt.port).Nodup :=
  C7_no_double_bind_amended envAllInUse 9000 (by decide) (by decide)

/-- In an environment that rejects every valid port as address-in-use and answers any
out-of-range port with an uncatchable exception, the search reaches an attempt on a
port above 65535 and that attempt aborts the search rather than being recovered. -/
lemma reach_out_of_range (env : Nat → Option PyExc) :
    ∀ l : List Nat,
      (∀ p ∈ l, p ≤ 65535 → try_bind env p = .notBound) →
      (∀ p, 65535 < p →
        ∃ exc, try_bind env p = .raised exc ∧ caughtAsAddrInUse exc = false) →
      (∃ p ∈ l, 65535 < p) →
      (∃ a ∈ attemptTrace env l, 65535 < a.port
        ∧ ∃ exc, try_bind env a.port = .raised exc ∧ caughtAsAddrInUse exc = false)
      ∧ (∃ exc, bindFirst env l = .fatal exc) := by
  intro l
  induction l with
  | nil =>
    intro _ _ hex
    simp at hex
  | cons p rest ih =>
    intro hvalid hover hex
    by_cases hp : 65535 < p
    · obtain ⟨exc, hraised, hcaught⟩ := hover p hp
      constructor
      · refine ⟨mkAttempt p, ?_, hp, exc, hraised, hcaught⟩
        rw [attemptTrace_cons, hraised]
        exact List.mem_singleton.mpr rfl
      · refine ⟨exc, ?_⟩
        rw [bindFirst_cons, hraised]
    · push_neg at hp
      have ht := hvalid p (List.mem_cons_self p rest) hp
      have hex' : ∃ q ∈ rest, 65535 < q := by
        obtain ⟨q, hq, hql⟩ := hex
        rcases List.mem_cons.mp hq with rfl | hq'
        · omega
        · exact ⟨q, hq', hql⟩
      obtain ⟨h1, h2⟩ :=
        ih (fun q hq hql => hvalid q (List.mem_cons_of_mem _ hq) hql) hover hex'
      constructor
      · obtain ⟨a, ha, hrest⟩ := h1
        refine ⟨a, ?_, hrest⟩
        rw [attemptTrace_cons, ht]
        exact List.mem_cons_of_mem _ ha
      · obtain ⟨exc, hb⟩ := h2
        refine ⟨exc, ?_⟩
        rw [bindFirst_cons, ht]
        exact hb

end DevServer

namespace DevServer

/-- C10: for a start port above 65515 (and within the valid range itself), the fixed
search width of 20 makes the fallback candidates overrun the valid port range with no
clipping; in an environment occupying every valid port, the search reaches an attempt
on a port above 65535 whose failure is not classified address-in-use by the recovery
branch — it aborts the search instead. -/
theorem C10_out_of_range_ports (P : Nat) (env : Nat → Option PyExc)
    (hP : 65515 < P) (hP2 : P ≤ 65535)
    (hvalid : ∀ p, p ≤ 65535 → ∃ exc, env p = some exc ∧ caughtAsAddrInUse exc = true)
    (hover : ∀ p, 65535 < p → ∃ msg, env p = some (.overflowError msg)) :
    (P + 20 ∈ fallbackPorts P ∧ (fallbackPorts P).length = 20 ∧ 65535 < P + 20)
    ∧ (∃ a ∈ mainTrace env P, 65535 < a.port
        ∧ ∃ exc, try_bind env a.port = .raised exc ∧ caughtAsAddrInUse exc = false)
    ∧ (∃ exc, mainBind env P = .fatal exc) := by
  have htv : ∀ p ∈ candidatePorts P, p ≤ 65535 → try_bind env p = .notBound := by
    intro p _ hple
    obtain ⟨exc, he, hc⟩ := hvalid p hple
    rw [try_bind_some he, if_pos hc]
  have hto : ∀ p, 65535 < p →
      ∃ exc, try_bind env p = .raised exc ∧ caughtAsAddrInUse exc = false := by
    intro p hpgt
    obtain ⟨msg, he⟩ := hover p hpgt
    refine ⟨.overflowError msg, ?_, rfl⟩
    rw [try_bind_some he]
    rfl
  have hmem : P + 20 ∈ fallbackPorts P := by
    unfold fallbackPorts
    exact List.mem_map.mpr ⟨19, by simp, by omega⟩
  have hex : ∃ p ∈ candidatePorts P, 65535 < p :=
    ⟨P + 20, List.mem_cons_of_mem _ (List.mem_append_left _ hmem), by omega⟩
  obtain ⟨h1, h2⟩ := reach_out_of_range env (candidatePorts P) htv hto hex
  refine ⟨⟨hmem, by simp [fallbackPorts], by omega⟩, h1, ?_⟩
  rw [mainBind_eq_bindFirst]
  exact h2

/-- Witness for C10 at start port 65520: in the concrete every-port-busy environment
the fallback width is 20, the last fallback port exceeds 65535, and the search dies on
an uncaught exception. -/
theorem C10_out_of_range_ports_witness :
    (fallbackPorts 65520).length = 20 ∧ 65535 < 65520 + 20 :=
  ⟨(C10_out_of_range_ports 65520 envBusyThenOverflow (by decide) (by decide)
      (fun p hp => ⟨.osError 48 "[Errno 48] Address already in use",
        by simp [envBusyThenOverflow, hp], by decide⟩)
      (fun p hp => ⟨"getsockaddrarg: port must be 0-65535.",
        by simp only [envBusyThenOverflow]; rw [if_neg (by omega)]⟩)).1.2.1,
   (C10_out_of_range_ports 65520 envBusyThenOverflow (by decide) (by decide)
      (fun p hp => ⟨.osError 48 "[Errno 48] Address already in use",
        by simp [envBusyThenOverflow, hp], by decide⟩)
      (fun p hp => ⟨"getsockaddrarg: port must be 0-65535.",
        by simp only [envBusyThenOverflow]; rw [if_neg (by omega)]⟩)).1.2.2⟩

end DevServer
